import Mathlib

/-!
Verification of the wolfHSM client library (`wolfhsm/wh_client.h`) against its
natural-language design specification.

The repository ships only the header with the client context structure and the
function declarations; the implementations are modelled here from the
specification, faithful to its words, with each such definition marked
`Modelled from the spec:` in its doc comment.
-/

namespace WolfHSM

/-- Modelled from the spec: the error taxonomy of §7 — transport errors,
correlation errors, server-reported errors (object/key not found, no handler
registered), and local validation errors (`badArgs`). `ok` is success. -/
inductive WhError where
  | ok
  | transport
  | correlation
  | badArgs
  | notFound
  | noHandler
  deriving DecidableEq, Repr

/-- The wire envelope of §6: group, action, request identity and payload
(header fields are 16-bit on the wire; payload is opaque bytes). -/
structure Envelope where
  group : Nat
  action : Nat
  reqId : Nat
  payload : List Nat
  deriving DecidableEq, Repr

/-- The client session context `whClientContext` of `wh_client.h`: the last
issued request identity and the last issued request kind, both 16-bit. -/
structure WhClientContext where
  last_req_id : Nat
  last_req_kind : Nat
  deriving DecidableEq, Repr

/-- Modelled from the spec: the transport channel interface of §6, reduced to
what one synchronous round trip observes — whether the send succeeds, the
channel's maximum frame size, and the envelope the channel eventually delivers
(`none` models a hard receive error; busy/not-ready retries are absorbed into
the blocking wait). -/
structure Channel where
  sendOk : Bool
  maxFrame : Nat
  incoming : Option Envelope
  deriving DecidableEq, Repr

/-- Modelled from the spec: the 16-bit message kind packing the group and
action tags of an operation into one "group+action tag" (`wh_comm.h` is not in
the sources). -/
def mkKind (group action : Nat) : Nat :=
  (group % 256) * 256 + action % 256

/-- Modelled from the spec (§4.1): `wh_Client_SendRequest` builds an envelope
with a freshly chosen request identity (increment-with-wraparound over the
16-bit counter), transmits it, and records (identity, kind) as "last issued"
only on successful send. Transmission failures (channel not connected, payload
larger than the channel's maximum frame) fail fast with a channel error and
leave the context untouched. Returns (result, new context, sent envelope). -/
def wh_Client_SendRequest (ch : Channel) (c : WhClientContext)
    (group action : Nat) (data : List Nat) :
    WhError × WhClientContext × Option Envelope :=
  if ch.sendOk = false ∨ data.length > ch.maxFrame then
    (.transport, c, none)
  else
    let reqId := (c.last_req_id + 1) % 65536
    (.ok, { last_req_id := reqId, last_req_kind := mkKind group action },
      some { group := group, action := action, reqId := reqId, payload := data })

/-- Modelled from the spec (§4.1): `wh_Client_RecvResponse` blocks until the
channel delivers an envelope, then verifies that its identity and (group,
action) kind equal what was last issued; a mismatch surfaces as a
protocol-correlation error distinct from transport errors. On success it
returns (group, action, size, payload). -/
def wh_Client_RecvResponse (ch : Channel) (c : WhClientContext) :
    Except WhError (Nat × Nat × Nat × List Nat) :=
  match ch.incoming with
  | none => .error .transport
  | some e =>
      if e.reqId = c.last_req_id ∧ mkKind e.group e.action = c.last_req_kind then
        .ok (e.group, e.action, e.payload.length, e.payload)
      else
        .error .correlation

/-- Modelled from the spec (§4.1): the synchronous call primitive —
`wh_Client_SendRequest` followed by the blocking `wh_Client_RecvResponse`.
Returns the updated context and the outcome. -/
def wh_Client_Call (ch : Channel) (c : WhClientContext)
    (group action : Nat) (data : List Nat) :
    WhClientContext × Except WhError (Nat × Nat × Nat × List Nat) :=
  match wh_Client_SendRequest ch c group action data with
  | (.ok, c2, _) => (c2, wh_Client_RecvResponse ch c2)
  | (e, c2, _) => (c2, .error e)

/-- A key entry held in the server's transient key cache: flags, label and
raw key bytes. -/
structure KeyEntry where
  flags : Nat
  label : List Nat
  key : List Nat
  deriving DecidableEq, Repr

/-- A labeled variable-length object in server-side non-volatile storage. -/
structure NvmObject where
  access : Nat
  flags : Nat
  label : List Nat
  data : List Nat
  deriving DecidableEq, Repr

/-- Modelled from the spec (§3): the observable server-side state a client
session acts on — the transient key cache (distinct from non-volatile
storage), the non-volatile object store, the registered custom-callback ids,
and the next key id the server will assign. Both stores are association lists
keyed by numeric id; the most recent binding shadows older ones. -/
structure ServerState where
  keyCache : List (Nat × KeyEntry)
  nvmObjects : List (Nat × NvmObject)
  callbacks : List Nat
  nextKeyId : Nat
  deriving DecidableEq, Repr

/-- Modelled from the spec (§6): the channel's maximum frame size, a channel
property the correlator must respect when sizing payloads; a representative
fixed value. -/
def WH_COMM_DATA_LEN : Nat := 1280

/-- Modelled from the spec (§4.3): the fixed header overhead of a key-cache
request, subtracted from the maximum frame size when bounding label and key
sizes. -/
def WH_KEYCACHE_OVERHEAD : Nat := 16

/-- Modelled from the spec (§4.3 Cache): label length and key length are
bounded by the channel's maximum frame size minus header overhead — oversize
inputs fail locally without a round trip; otherwise the server assigns a
fresh id and stores the entry in its transient cache. Returns
(result, assigned id, new server state). -/
def wh_Client_KeyCache (s : ServerState) (flags : Nat)
    (label key : List Nat) : WhError × Nat × ServerState :=
  if WH_KEYCACHE_OVERHEAD + label.length + key.length > WH_COMM_DATA_LEN then
    (.badArgs, 0, s)
  else
    (.ok, s.nextKeyId,
     { s with
       keyCache := (s.nextKeyId,
         { flags := flags, label := label, key := key }) :: s.keyCache,
       nextKeyId := s.nextKeyId + 1 })

/-- Modelled from the spec (§4.3 Export): the server looks the id up in its
transient cache and returns the cached label and key bytes; a miss is a
cache-miss error. -/
def serverKeyExport (s : ServerState) (keyId : Nat) :
    Except WhError (List Nat × List Nat) :=
  match s.keyCache.lookup keyId with
  | none => .error .notFound
  | some e => .ok (e.label, e.key)

/-- Modelled from the spec (§9): `wh_Client_KeyExportResponse` validates the
server-reported label and key lengths against the caller-provided capacities
before copying, producing a local validation error instead of overrunning.
Returns (result, copied label bytes, copied key bytes, reported key length). -/
def wh_Client_KeyExportResponse (resp_label resp_key : List Nat)
    (labelSz outSz : Nat) : WhError × List Nat × List Nat × Nat :=
  if resp_label.length > labelSz ∨ resp_key.length > outSz then
    (.badArgs, [], [], 0)
  else
    (.ok, resp_label, resp_key, resp_key.length)

/-- Modelled from the spec (§4.3 Export): the full export round trip —
server-side cache lookup followed by the client-side size-checked response
parse. -/
def wh_Client_KeyExport (s : ServerState) (keyId labelSz outSz : Nat) :
    WhError × List Nat × List Nat × Nat :=
  match serverKeyExport s keyId with
  | .error e => (e, [], [], 0)
  | .ok (l, k) => wh_Client_KeyExportResponse l k labelSz outSz

/-- A cached key entry persisted to non-volatile storage keeps its flags,
label and bytes. -/
def keyEntryToObject (e : KeyEntry) : NvmObject :=
  { access := 0, flags := e.flags, label := e.label, data := e.key }

/-- Modelled from the spec (§4.3 Commit): persists the cached key to
non-volatile storage under the same id; fails if the id is not currently
cached. The transient cache is unchanged. -/
def wh_Client_KeyCommit (s : ServerState) (keyId : Nat) :
    WhError × ServerState :=
  match s.keyCache.lookup keyId with
  | none => (.notFound, s)
  | some e =>
      (.ok,
       { s with nvmObjects := (keyId, keyEntryToObject e) :: s.nvmObjects })

/-- Modelled from the spec (§4.3 Evict): removes the id from the transient
cache only; committed copies in non-volatile storage are unaffected. -/
def wh_Client_KeyEvict (s : ServerState) (keyId : Nat) :
    WhError × ServerState :=
  match s.keyCache.lookup keyId with
  | none => (.notFound, s)
  | some _ =>
      (.ok, { s with keyCache := s.keyCache.filter (fun p => p.1 != keyId) })

/-- Modelled from the spec (§4.4 Read): reads `data_len` bytes of the stored
object starting at `offset`; the actual length may be less than requested if
the object is shorter than offset+length (truncation, not error), unless the
offset exceeds the object length, which is an error. Returns
(result, actual length, data bytes). -/
def wh_Client_NvmRead (s : ServerState) (id offset data_len : Nat) :
    WhError × Nat × List Nat :=
  match s.nvmObjects.lookup id with
  | none => (.notFound, 0, [])
  | some obj =>
      if offset > obj.data.length then
        (.badArgs, 0, [])
      else
        ((.ok, ((obj.data.drop offset).take data_len).length,
          (obj.data.drop offset).take data_len) : WhError × Nat × List Nat)

/-- The logical content of a direct-memory read request: object id, offset,
length, and the client-memory address the server writes into. -/
structure NvmReadDmaRequest where
  id : Nat
  offset : Nat
  data_len : Nat
  data_hostaddr : Nat
  deriving DecidableEq, Repr

/-- The logical content of a direct-memory add-object request: metadata
address, data length, and data address in client memory. -/
structure NvmAddObjectDmaRequest where
  metadata_hostaddr : Nat
  data_len : Nat
  data_hostaddr : Nat
  deriving DecidableEq, Repr

/-- Modelled from the spec (§6): the narrow read variant transmits the host
address as a fixed 32-bit unsigned integer. -/
def wh_Client_NvmReadDma32Request (id offset data_len data_hostaddr : Nat) :
    NvmReadDmaRequest :=
  { id := id, offset := offset, data_len := data_len,
    data_hostaddr := data_hostaddr % 2 ^ 32 }

/-- Modelled from the spec (§6): the wide read variant transmits the host
address as a fixed 64-bit unsigned integer. -/
def wh_Client_NvmReadDma64Request (id offset data_len data_hostaddr : Nat) :
    NvmReadDmaRequest :=
  { id := id, offset := offset, data_len := data_len,
    data_hostaddr := data_hostaddr % 2 ^ 64 }

/-- Modelled from the spec (§3, §4.4 ReadDirect): the server validates the
direct-memory address (a null address is rejected) and the read bounds, then
writes into client memory; only the result code is observable here. -/
def serverNvmReadDma (s : ServerState) (req : NvmReadDmaRequest) : WhError :=
  if req.data_hostaddr = 0 then .badArgs
  else
    match s.nvmObjects.lookup req.id with
    | none => .notFound
    | some obj => if req.offset > obj.data.length then .badArgs else .ok

/-- Modelled from the spec (§4.4): the narrow direct-memory read — builds the
narrow request and reports the server's result code. -/
def wh_Client_NvmReadDma32 (s : ServerState)
    (id offset data_len data_hostaddr : Nat) : WhError :=
  serverNvmReadDma s
    (wh_Client_NvmReadDma32Request id offset data_len data_hostaddr)

/-- Modelled from the spec (§4.4): the wide direct-memory read — builds the
wide request and reports the server's result code. -/
def wh_Client_NvmReadDma64 (s : ServerState)
    (id offset data_len data_hostaddr : Nat) : WhError :=
  serverNvmReadDma s
    (wh_Client_NvmReadDma64Request id offset data_len data_hostaddr)

/-- Modelled from the spec (§6): the narrow add-object variant transmits both
host addresses as fixed 32-bit unsigned integers. -/
def wh_Client_NvmAddObjectDma32Request
    (metadata_hostaddr data_len data_hostaddr : Nat) :
    NvmAddObjectDmaRequest :=
  { metadata_hostaddr := metadata_hostaddr % 2 ^ 32, data_len := data_len,
    data_hostaddr := data_hostaddr % 2 ^ 32 }

/-- Modelled from the spec (§6): the wide add-object variant transmits both
host addresses as fixed 64-bit unsigned integers. -/
def wh_Client_NvmAddObjectDma64Request
    (metadata_hostaddr data_len data_hostaddr : Nat) :
    NvmAddObjectDmaRequest :=
  { metadata_hostaddr := metadata_hostaddr % 2 ^ 64, data_len := data_len,
    data_hostaddr := data_hostaddr % 2 ^ 64 }

/-- Modelled from the spec (§3, §4.4 AddObjectDirect): the server validates
both direct-memory addresses before pulling the object bytes from client
memory; only the result code is observable here. -/
def serverNvmAddObjectDma (s : ServerState) (req : NvmAddObjectDmaRequest) :
    WhError :=
  if req.metadata_hostaddr = 0 ∨ req.data_hostaddr = 0 then .badArgs else .ok

/-- Modelled from the spec (§4.4): the narrow direct-memory add-object. -/
def wh_Client_NvmAddObjectDma32 (s : ServerState)
    (metadata_hostaddr data_len data_hostaddr : Nat) : WhError :=
  serverNvmAddObjectDma s
    (wh_Client_NvmAddObjectDma32Request metadata_hostaddr data_len
      data_hostaddr)

/-- Modelled from the spec (§4.4): the wide direct-memory add-object. -/
def wh_Client_NvmAddObjectDma64 (s : ServerState)
    (metadata_hostaddr data_len data_hostaddr : Nat) : WhError :=
  serverNvmAddObjectDma s
    (wh_Client_NvmAddObjectDma64Request metadata_hostaddr data_len
      data_hostaddr)

/-- The logical content of a bulk-destroy request: the transmitted id list. -/
structure NvmDestroyRequest where
  ids : List Nat
  deriving DecidableEq, Repr

/-- Modelled from the spec (§4.4 DestroyObjects): the request transmits the
first `list_count` ids of the caller's list and nothing else. -/
def wh_Client_NvmDestroyObjectsRequest (list_count : Nat)
    (id_list : List Nat) : NvmDestroyRequest :=
  { ids := id_list.take list_count }

/-- Modelled from the spec (§4.4 DestroyObjects): the server deletes every
listed object and reports one aggregate result code. -/
def serverDestroyObjects (s : ServerState) (req : NvmDestroyRequest) :
    WhError × ServerState :=
  (.ok,
   { s with nvmObjects :=
       s.nvmObjects.filter (fun p => !(req.ids.contains p.1)) })

/-- Modelled from the spec (§4.4 DestroyObjects): the full bulk-delete
operation — the request is built from the id list alone and the server
performs the aggregate delete. The trailing `len` and `data` parameters of
the header's signature carry no payload for this operation and do not enter
the request. Returns (transmitted request, aggregate result, new state). -/
def wh_Client_NvmDestroyObjects (s : ServerState) (list_count : Nat)
    (id_list : List Nat) (len : Nat) (data : List Nat) :
    NvmDestroyRequest × WhError × ServerState :=
  (wh_Client_NvmDestroyObjectsRequest list_count id_list,
   serverDestroyObjects s
     (wh_Client_NvmDestroyObjectsRequest list_count id_list))

/-- Modelled from the spec (§4.5): the blocking check-registered call. On a
working channel it succeeds at the protocol level and reports the tri-state
outcome through `responseError`: `ok` when a handler is registered for the
id, `noHandler` when none is. On a channel failure it fails with a transport
error and sets no response outcome. Returns (result, responseError). -/
def wh_Client_CustomCbCheckRegistered (s : ServerState) (sendOk : Bool)
    (id : Nat) : WhError × Option WhError :=
  if sendOk then
    (.ok, some (if s.callbacks.contains id then WhError.ok else .noHandler))
  else
    (.transport, none)

/-- A concrete channel whose pending response matches the request
(group 1, action 2) sent from the fresh context `ctxW`. -/
def chW : Channel :=
  { sendOk := true, maxFrame := 128,
    incoming := some { group := 1, action := 2, reqId := 1, payload := [9] } }

/-- A concrete channel that refuses to send. -/
def chBad : Channel :=
  { sendOk := false, maxFrame := 128, incoming := none }

/-- A fresh client context. -/
def ctxW : WhClientContext := { last_req_id := 0, last_req_kind := 0 }

/-- A concrete server state: one cached key under id 5 (label "k1", sixteen
zero bytes), one stored object under id 7, and callback id 3 registered. -/
def srvW : ServerState :=
  { keyCache :=
      [(5, { flags := 0, label := [107, 49], key := List.replicate 16 0 })],
    nvmObjects :=
      [(7, { access := 0, flags := 0, label := [111], data := [1, 2, 3, 4] })],
    callbacks := [3],
    nextKeyId := 10 }

/-- Incrementing a 16-bit counter with wraparound always changes its value. -/
theorem succ_mod_65536_ne (n : Nat) (h : n < 65536) : (n + 1) % 65536 ≠ n := by
  rcases Nat.lt_or_ge (n + 1) 65536 with h' | h'
  · rw [Nat.mod_eq_of_lt h']
    omega
  · have hn : n + 1 = 65536 := by omega
    rw [hn]
    simp
    omega

/-- When the channel accepts the send, `wh_Client_SendRequest` succeeds,
records the incremented identity and the kind, and emits the envelope. -/
theorem wh_Client_SendRequest_eq_of_ok (ch : Channel) (c : WhClientContext)
    (group action : Nat) (data : List Nat)
    (hs : ¬(ch.sendOk = false ∨ data.length > ch.maxFrame)) :
    wh_Client_SendRequest ch c group action data =
      (.ok,
       { last_req_id := (c.last_req_id + 1) % 65536,
         last_req_kind := mkKind group action },
       some { group := group, action := action,
              reqId := (c.last_req_id + 1) % 65536, payload := data }) := by
  rw [wh_Client_SendRequest, if_neg hs]

/-- When the channel rejects the send, `wh_Client_SendRequest` fails with a
transport error and returns the context unchanged. -/
theorem wh_Client_SendRequest_eq_of_fail (ch : Channel) (c : WhClientContext)
    (group action : Nat) (data : List Nat)
    (hs : ch.sendOk = false ∨ data.length > ch.maxFrame) :
    wh_Client_SendRequest ch c group action data = (.transport, c, none) := by
  rw [wh_Client_SendRequest, if_pos hs]

/-- When the channel accepts the send, the call primitive is the receive step
run in the context updated by the send. -/
theorem wh_Client_Call_eq_of_sendOk (ch : Channel) (c : WhClientContext)
    (group action : Nat) (data : List Nat)
    (hs : ¬(ch.sendOk = false ∨ data.length > ch.maxFrame)) :
    wh_Client_Call ch c group action data =
      ({ last_req_id := (c.last_req_id + 1) % 65536,
         last_req_kind := mkKind group action },
       wh_Client_RecvResponse ch
         { last_req_id := (c.last_req_id + 1) % 65536,
           last_req_kind := mkKind group action }) := by
  simp [wh_Client_Call, wh_Client_SendRequest, hs]

/-- When the channel rejects the send, the call primitive fails with a
transport error and the context is unchanged. -/
theorem wh_Client_Call_eq_of_sendFail (ch : Channel) (c : WhClientContext)
    (group action : Nat) (data : List Nat)
    (hs : ch.sendOk = false ∨ data.length > ch.maxFrame) :
    wh_Client_Call ch c group action data = (c, .error .transport) := by
  simp [wh_Client_Call, wh_Client_SendRequest, hs]

/-- C1: For every valid (group, action, payload) triple, the synchronous call
primitive (SendRequest followed by RecvResponse) either returns a response
whose request identity and (group, action) kind equal those of the most
recently sent request, or fails with a correlation error distinct from
transport errors; it never returns a mismatched or stale response as if it
were successful. -/
theorem wh_Client_Call_correlates (ch : Channel) (c : WhClientContext)
    (group action : Nat) (data : List Nat) :
    (∀ g a sz d, (wh_Client_Call ch c group action data).2 = .ok (g, a, sz, d) →
      ∃ e, ch.incoming = some e ∧ g = e.group ∧ a = e.action ∧
        e.reqId = (wh_Client_Call ch c group action data).1.last_req_id ∧
        e.reqId = (c.last_req_id + 1) % 65536 ∧
        mkKind e.group e.action = mkKind group action) ∧
    (∀ err, (wh_Client_Call ch c group action data).2 = .error err →
      err = .transport ∨ err = .correlation) ∧
    WhError.correlation ≠ WhError.transport := by
  refine ⟨?_, ?_, by decide⟩
  · intro g a sz d hok
    by_cases hs : ch.sendOk = false ∨ data.length > ch.maxFrame
    · rw [wh_Client_Call_eq_of_sendFail ch c group action data hs] at hok
      exact absurd hok (by simp)
    · rw [wh_Client_Call_eq_of_sendOk ch c group action data hs] at hok ⊢
      cases hin : ch.incoming with
      | none => simp [wh_Client_RecvResponse, hin] at hok
      | some e =>
        by_cases hm : e.reqId = (c.last_req_id + 1) % 65536 ∧
            mkKind e.group e.action = mkKind group action
        · refine ⟨e, rfl, ?_⟩
          simp [wh_Client_RecvResponse, hin, hm] at hok
          exact ⟨hok.1.symm, hok.2.1.symm, hm.1, hm.1, hm.2⟩
        · simp [wh_Client_RecvResponse, hin, hm] at hok
  · intro err herr
    by_cases hs : ch.sendOk = false ∨ data.length > ch.maxFrame
    · rw [wh_Client_Call_eq_of_sendFail ch c group action data hs] at herr
      left
      exact (Except.error.injEq _ _ ▸ herr).symm ▸ rfl
    · rw [wh_Client_Call_eq_of_sendOk ch c group action data hs] at herr
      cases hin : ch.incoming with
      | none =>
        simp [wh_Client_RecvResponse, hin] at herr
        left
        exact herr.symm
      | some e =>
        by_cases hm : e.reqId = (c.last_req_id + 1) % 65536 ∧
            mkKind e.group e.action = mkKind group action
        · simp [wh_Client_RecvResponse, hin, hm] at herr
        · simp [wh_Client_RecvResponse, hin, hm] at herr
          right
          exact herr.symm

/-- C1 witness: a successful round trip on the concrete channel `chW`
satisfies the correlation property at (group 1, action 2). -/
theorem wh_Client_Call_correlates_witness :
    ∃ e, chW.incoming = some e ∧ 1 = e.group ∧ 2 = e.action ∧
      e.reqId = (wh_Client_Call chW ctxW 1 2 [5]).1.last_req_id ∧
      e.reqId = (ctxW.last_req_id + 1) % 65536 ∧
      mkKind e.group e.action = mkKind 1 2 :=
  (wh_Client_Call_correlates chW ctxW 1 2 [5]).1 1 2 1 [9] (by rfl)

/-- C3: Every request sent by wh_Client_SendRequest carries a request identity
distinct from the previous one, chosen by incrementing the session's last
issued identity modulo 2^16, and on each send the session records that
identity together with the group/action kind as the last issued request. -/
theorem wh_Client_SendRequest_fresh (ch : Channel) (c : WhClientContext)
    (group action : Nat) (data : List Nat)
    (hlt : c.last_req_id < 65536)
    (hok : (wh_Client_SendRequest ch c group action data).1 = .ok) :
    (wh_Client_SendRequest ch c group action data).2.1.last_req_id
        = (c.last_req_id + 1) % 65536 ∧
    (wh_Client_SendRequest ch c group action data).2.1.last_req_id
        ≠ c.last_req_id ∧
    (wh_Client_SendRequest ch c group action data).2.1.last_req_kind
        = mkKind group action ∧
    (∃ e, (wh_Client_SendRequest ch c group action data).2.2 = some e ∧
      e.reqId = (wh_Client_SendRequest ch c group action data).2.1.last_req_id ∧
      e.group = group ∧ e.action = action) := by
  by_cases hs : ch.sendOk = false ∨ data.length > ch.maxFrame
  · rw [wh_Client_SendRequest_eq_of_fail ch c group action data hs] at hok
    simp at hok
  · rw [wh_Client_SendRequest_eq_of_ok ch c group action data hs]
    exact ⟨rfl, succ_mod_65536_ne c.last_req_id hlt, rfl,
      ⟨_, rfl, rfl, rfl, rfl⟩⟩

/-- C3 witness: a concrete successful send from the fresh context changes the
last issued identity. -/
theorem wh_Client_SendRequest_fresh_witness :
    (wh_Client_SendRequest chW ctxW 1 2 [5]).2.1.last_req_id
      ≠ ctxW.last_req_id :=
  (wh_Client_SendRequest_fresh chW ctxW 1 2 [5] (by decide) (by rfl)).2.1

/-- C4: wh_Client_SendRequest updates the session's last issued request state
(last_req_id and last_req_kind) only when the send succeeds; when the send
fails, both fields are left exactly as they were before the call. -/
theorem wh_Client_SendRequest_no_partial_update (ch : Channel)
    (c : WhClientContext) (group action : Nat) (data : List Nat)
    (hfail : (wh_Client_SendRequest ch c group action data).1 ≠ .ok) :
    (wh_Client_SendRequest ch c group action data).2.1.last_req_id
        = c.last_req_id ∧
    (wh_Client_SendRequest ch c group action data).2.1.last_req_kind
        = c.last_req_kind := by
  by_cases hs : ch.sendOk = false ∨ data.length > ch.maxFrame
  · rw [wh_Client_SendRequest_eq_of_fail ch c group action data hs]
    exact ⟨rfl, rfl⟩
  · rw [wh_Client_SendRequest_eq_of_ok ch c group action data hs] at hfail
    exact absurd rfl hfail

/-- C4 witness: a send over the refusing channel `chBad` leaves the context
fields unchanged. -/
theorem wh_Client_SendRequest_no_partial_update_witness :
    (wh_Client_SendRequest chBad ctxW 1 2 [5]).2.1.last_req_id
        = ctxW.last_req_id ∧
    (wh_Client_SendRequest chBad ctxW 1 2 [5]).2.1.last_req_kind
        = ctxW.last_req_kind :=
  wh_Client_SendRequest_no_partial_update chBad ctxW 1 2 [5] (by decide)

/-- Looking up an id in an association list filtered to exclude that id
yields nothing. -/
theorem lookup_filter_bne_self {α : Type} (l : List (Nat × α)) (a : Nat) :
    (l.filter (fun p => p.1 != a)).lookup a = none := by
  induction l with
  | nil => rfl
  | cons hd tl ih =>
      rw [List.filter_cons]
      by_cases h : hd.1 = a
      · rw [if_neg (by simp [h])]
        exact ih
      · rw [if_pos (by simp [h]), List.lookup_cons]
        have hb : (a == hd.1) = false := by simp [Ne.symm h]
        rw [hb]
        exact ih

/-- C2: For every label L and key bytes K whose sizes fit within the maximum
frame size, a successful wh_Client_KeyCache with (label=L, key=K) yielding
id, followed by wh_Client_KeyExport(id) with sufficient buffer capacity,
returns label L and key bytes K byte-for-byte identical to the cached
inputs. -/
theorem keyCache_keyExport_roundtrip (s : ServerState) (flags : Nat)
    (label key : List Nat) (labelSz outSz : Nat)
    (hfit : WH_KEYCACHE_OVERHEAD + label.length + key.length
      ≤ WH_COMM_DATA_LEN)
    (hl : label.length ≤ labelSz) (hk : key.length ≤ outSz) :
    (wh_Client_KeyCache s flags label key).1 = .ok ∧
    wh_Client_KeyExport (wh_Client_KeyCache s flags label key).2.2
      (wh_Client_KeyCache s flags label key).2.1 labelSz outSz
      = (.ok, label, key, key.length) := by
  have hcache : wh_Client_KeyCache s flags label key =
      (.ok, s.nextKeyId,
       { s with
         keyCache := (s.nextKeyId,
           { flags := flags, label := label, key := key }) :: s.keyCache,
         nextKeyId := s.nextKeyId + 1 }) := by
    rw [wh_Client_KeyCache, if_neg (by omega)]
  have hse : serverKeyExport
      { s with
        keyCache := (s.nextKeyId,
          { flags := flags, label := label, key := key }) :: s.keyCache,
        nextKeyId := s.nextKeyId + 1 } s.nextKeyId = .ok (label, key) := by
    simp [serverKeyExport, List.lookup_cons]
  refine ⟨by rw [hcache], ?_⟩
  rw [hcache]
  simp only [wh_Client_KeyExport, hse]
  rw [wh_Client_KeyExportResponse, if_neg (by omega)]

/-- C2 witness: caching label "k1" with sixteen zero key bytes on the
concrete server state and exporting the assigned id returns them intact. -/
theorem keyCache_keyExport_roundtrip_witness :
    wh_Client_KeyExport
      (wh_Client_KeyCache srvW 0 [107, 49] (List.replicate 16 0)).2.2
      (wh_Client_KeyCache srvW 0 [107, 49] (List.replicate 16 0)).2.1 24 16
      = (.ok, [107, 49], List.replicate 16 0, (List.replicate 16 0).length) :=
  (keyCache_keyExport_roundtrip srvW 0 [107, 49] (List.replicate 16 0) 24 16
    (by decide) (by decide) (by decide)).2

/-- C5: wh_Client_KeyExportResponse checks the reported lengths against the
caller-provided capacities before copying; when a reported length exceeds the
capacity it returns a local validation error, and it never copies more than
the capacity. -/
theorem keyExportResponse_size_checked (resp_label resp_key : List Nat)
    (labelSz outSz : Nat) :
    (resp_label.length > labelSz ∨ resp_key.length > outSz →
      (wh_Client_KeyExportResponse resp_label resp_key labelSz outSz).1
        = .badArgs) ∧
    (resp_label.length ≤ labelSz → resp_key.length ≤ outSz →
      wh_Client_KeyExportResponse resp_label resp_key labelSz outSz
        = (.ok, resp_label, resp_key, resp_key.length)) ∧
    (wh_Client_KeyExportResponse resp_label resp_key labelSz outSz).2.1.length
        ≤ labelSz ∧
    (wh_Client_KeyExportResponse resp_label resp_key
        labelSz outSz).2.2.1.length ≤ outSz := by
  by_cases h : resp_label.length > labelSz ∨ resp_key.length > outSz
  · rw [wh_Client_KeyExportResponse, if_pos h]
    exact ⟨fun _ => rfl, fun h1 h2 => absurd h (by omega),
      by simp, by simp⟩
  · rw [wh_Client_KeyExportResponse, if_neg h]
    push_neg at h
    exact ⟨fun hc => absurd hc (by omega), fun _ _ => rfl,
      by simpa using h.1, by simpa using h.2⟩

/-- C5 witness: a server-reported label longer than the caller's capacity is
rejected with a local validation error. -/
theorem keyExportResponse_size_checked_witness :
    (wh_Client_KeyExportResponse [1, 2, 3] [4, 5] 2 8).1 = .badArgs :=
  (keyExportResponse_size_checked [1, 2, 3] [4, 5] 2 8).1 (by decide)

/-- C6: For a stored object of length N, wh_Client_NvmRead(id, offset,
data_len) truncates without error when offset ≤ N < offset + data_len
(returning N - offset bytes), fails when offset > N, and otherwise returns
exactly data_len bytes. -/
theorem nvmRead_truncation (s : ServerState) (id offset data_len : Nat)
    (obj : NvmObject) (hobj : s.nvmObjects.lookup id = some obj) :
    (offset ≤ obj.data.length → obj.data.length < offset + data_len →
      (wh_Client_NvmRead s id offset data_len).1 = .ok ∧
      (wh_Client_NvmRead s id offset data_len).2.1
        = obj.data.length - offset) ∧
    (offset > obj.data.length →
      (wh_Client_NvmRead s id offset data_len).1 = .badArgs) ∧
    (offset + data_len ≤ obj.data.length →
      (wh_Client_NvmRead s id offset data_len).1 = .ok ∧
      (wh_Client_NvmRead s id offset data_len).2.1 = data_len) := by
  have hunf : wh_Client_NvmRead s id offset data_len =
      if offset > obj.data.length then (.badArgs, 0, ([] : List Nat))
      else
        ((.ok, ((obj.data.drop offset).take data_len).length,
          (obj.data.drop offset).take data_len) : WhError × Nat × List Nat)
      := by
    unfold wh_Client_NvmRead
    rw [hobj]
  rw [hunf]
  refine ⟨?_, ?_, ?_⟩
  · intro h1 h2
    rw [if_neg (by omega)]
    refine ⟨rfl, ?_⟩
    simp only [List.length_take, List.length_drop]
    omega
  · intro h
    rw [if_pos h]
  · intro h
    rw [if_neg (by omega)]
    refine ⟨rfl, ?_⟩
    simp only [List.length_take, List.length_drop]
    omega

/-- C6 witness: reading 5 bytes at offset 2 of the stored 4-byte object
succeeds and returns the 2 remaining bytes. -/
theorem nvmRead_truncation_witness :
    (wh_Client_NvmRead srvW 7 2 5).1 = .ok ∧
    (wh_Client_NvmRead srvW 7 2 5).2.1 = 2 :=
  (nvmRead_truncation srvW 7 2 5
    { access := 0, flags := 0, label := [111], data := [1, 2, 3, 4] }
    (by decide)).1 (by decide) (by decide)

/-- Evicting a cached id succeeds and removes exactly that id from the
transient cache, leaving the rest of the state untouched. -/
theorem wh_Client_KeyEvict_eq (s : ServerState) (keyId : Nat) (e : KeyEntry)
    (hc : s.keyCache.lookup keyId = some e) :
    wh_Client_KeyEvict s keyId =
      (.ok,
       { s with keyCache := s.keyCache.filter (fun p => p.1 != keyId) }) := by
  unfold wh_Client_KeyEvict
  rw [hc]

/-- C7: After Commit(id) then Evict(id), the key is gone from the transient
cache — Export(id) fails with a cache-miss error — while the committed copy
in non-volatile storage is unaffected. -/
theorem keyCommit_keyEvict_frame (s : ServerState) (keyId : Nat)
    (e : KeyEntry) (labelSz outSz : Nat) (s1 s2 : ServerState)
    (hc : s.keyCache.lookup keyId = some e)
    (hs1 : s1 = (wh_Client_KeyCommit s keyId).2)
    (hs2 : s2 = (wh_Client_KeyEvict s1 keyId).2) :
    (wh_Client_KeyCommit s keyId).1 = .ok ∧
    (wh_Client_KeyEvict s1 keyId).1 = .ok ∧
    s2.nvmObjects = s1.nvmObjects ∧
    s1.nvmObjects.lookup keyId = some (keyEntryToObject e) ∧
    s2.keyCache.lookup keyId = none ∧
    (wh_Client_KeyExport s2 keyId labelSz outSz).1 = .notFound := by
  have hcommit : wh_Client_KeyCommit s keyId =
      (.ok,
       { s with nvmObjects := (keyId, keyEntryToObject e) :: s.nvmObjects })
      := by
    unfold wh_Client_KeyCommit
    rw [hc]
  have hc2 : (wh_Client_KeyCommit s keyId).2.keyCache.lookup keyId = some e
      := by
    rw [hcommit]
    exact hc
  have hevict := wh_Client_KeyEvict_eq (wh_Client_KeyCommit s keyId).2 keyId
    e hc2
  subst hs2
  subst hs1
  have hmiss : (wh_Client_KeyEvict (wh_Client_KeyCommit s keyId).2
      keyId).2.keyCache.lookup keyId = none := by
    rw [hevict]
    exact lookup_filter_bne_self _ keyId
  refine ⟨by rw [hcommit], by rw [hevict], by rw [hevict], ?_, hmiss, ?_⟩
  · rw [hcommit]
    simp [List.lookup_cons]
  · simp [wh_Client_KeyExport, serverKeyExport, hmiss]

/-- C7 witness: on the concrete server state, committing then evicting key 5
leaves non-volatile storage intact and makes export miss the cache. -/
theorem keyCommit_keyEvict_frame_witness :
    (wh_Client_KeyExport
      (wh_Client_KeyEvict (wh_Client_KeyCommit srvW 5).2 5).2 5 24 16).1
      = .notFound :=
  (keyCommit_keyEvict_frame srvW 5
    { flags := 0, label := [107, 49], key := List.replicate 16 0 } 24 16
    (wh_Client_KeyCommit srvW 5).2
    (wh_Client_KeyEvict (wh_Client_KeyCommit srvW 5).2 5).2
    (by decide) rfl rfl).2.2.2.2.2

/-- C8: For every host address representable in 32 bits, the narrow and wide
direct-memory operations build the same logical request and produce the same
result, for both the read and the add-object pairs. -/
theorem dma_narrow_wide_equiv (s : ServerState)
    (id offset data_len addr maddr daddr : Nat)
    (ha : addr < 2 ^ 32) (hm : maddr < 2 ^ 32) (hd : daddr < 2 ^ 32) :
    wh_Client_NvmReadDma32Request id offset data_len addr
      = wh_Client_NvmReadDma64Request id offset data_len addr ∧
    wh_Client_NvmReadDma32 s id offset data_len addr
      = wh_Client_NvmReadDma64 s id offset data_len addr ∧
    wh_Client_NvmAddObjectDma32Request maddr data_len daddr
      = wh_Client_NvmAddObjectDma64Request maddr data_len daddr ∧
    wh_Client_NvmAddObjectDma32 s maddr data_len daddr
      = wh_Client_NvmAddObjectDma64 s maddr data_len daddr := by
  have h32 : ∀ n : Nat, n < 2 ^ 32 → n % 2 ^ 32 = n % 2 ^ 64 := by
    intro n hn
    rw [Nat.mod_eq_of_lt hn, Nat.mod_eq_of_lt (lt_trans hn (by norm_num))]
  have hreq : wh_Client_NvmReadDma32Request id offset data_len addr
      = wh_Client_NvmReadDma64Request id offset data_len addr := by
    unfold wh_Client_NvmReadDma32Request wh_Client_NvmReadDma64Request
    rw [h32 addr ha]
  have hareq : wh_Client_NvmAddObjectDma32Request maddr data_len daddr
      = wh_Client_NvmAddObjectDma64Request maddr data_len daddr := by
    unfold wh_Client_NvmAddObjectDma32Request
      wh_Client_NvmAddObjectDma64Request
    rw [h32 maddr hm, h32 daddr hd]
  refine ⟨hreq, ?_, hareq, ?_⟩
  · unfold wh_Client_NvmReadDma32 wh_Client_NvmReadDma64
    rw [hreq]
  · unfold wh_Client_NvmAddObjectDma32 wh_Client_NvmAddObjectDma64
    rw [hareq]

/-- C8 witness: at concrete 32-bit addresses the narrow and wide read
variants agree on the concrete server state. -/
theorem dma_narrow_wide_equiv_witness :
    wh_Client_NvmReadDma32 srvW 7 0 4 4096
      = wh_Client_NvmReadDma64 srvW 7 0 4 4096 :=
  (dma_narrow_wide_equiv srvW 7 0 4 4096 8192 12288
    (by norm_num) (by norm_num) (by norm_num)).2.1

/-- C9: The bulk-delete operation is a function of the id list alone: its
`len` and `data` parameters do not influence the transmitted request, the
result, or the new state, which match wh_Client_NvmDestroyObjectsRequest
composed with the server-side bulk delete. -/
theorem nvmDestroyObjects_depends_only_on_list (s : ServerState)
    (list_count : Nat) (id_list : List Nat)
    (len1 len2 : Nat) (data1 data2 : List Nat) :
    wh_Client_NvmDestroyObjects s list_count id_list len1 data1
      = wh_Client_NvmDestroyObjects s list_count id_list len2 data2 ∧
    (wh_Client_NvmDestroyObjects s list_count id_list len1 data1).1
      = wh_Client_NvmDestroyObjectsRequest list_count id_list ∧
    (wh_Client_NvmDestroyObjects s list_count id_list len1 data1).2
      = serverDestroyObjects s
          (wh_Client_NvmDestroyObjectsRequest list_count id_list) :=
  ⟨rfl, rfl, rfl⟩

/-- C10: wh_Client_CustomCbCheckRegistered succeeds at the protocol level for
an unregistered id, reporting the no-handler outcome through responseError;
for a registered id it reports ok; the three outcomes (ok, no-handler,
transport/protocol failure) are pairwise distinguishable. -/
theorem customCbCheckRegistered_tristate (s : ServerState) (id : Nat) :
    (s.callbacks.contains id = false →
      wh_Client_CustomCbCheckRegistered s true id
        = (.ok, some .noHandler)) ∧
    (s.callbacks.contains id = true →
      wh_Client_CustomCbCheckRegistered s true id = (.ok, some .ok)) ∧
    WhError.noHandler ≠ WhError.ok ∧
    WhError.noHandler ≠ WhError.transport ∧
    WhError.noHandler ≠ WhError.correlation := by
  refine ⟨?_, ?_, by decide, by decide, by decide⟩
  · intro h
    have h' : id ∉ s.callbacks := by simpa using h
    simp [wh_Client_CustomCbCheckRegistered, h']
  · intro h
    have h' : id ∈ s.callbacks := by simpa using h
    simp [wh_Client_CustomCbCheckRegistered, h']

/-- C10 witness: on the concrete server state, callback id 4 has no handler
and the check reports the no-handler outcome with protocol success. -/
theorem customCbCheckRegistered_tristate_witness :
    wh_Client_CustomCbCheckRegistered srvW true 4
      = (.ok, some .noHandler) :=
  (customCbCheckRegistered_tristate srvW 4).1 (by decide)

end WolfHSM
